import Mathlib

/-!
# mysh: a shallow embedding of `source/mysh.c`

The C program is a command-line interpreter skeleton.  Its functions are
embedded as Lean functions that return the list of library calls they make
(the trace) together with the way they end (return, `exit`, ...).

Everything the operating system decides (whether `fopen` finds the file,
what `fclose` answers, whether `execv` replaces the process image, whether
the C library's `getopt` runs in POSIX order, what lines a stream holds) is
a field of `Env`.
-/

namespace Mysh

/-! ## Data model -/

/-- Open stream, the target of a non-null `FILE *`. -/
structure FILE where
  id : Nat
deriving DecidableEq, Repr

/-- Modelled from the spec: the execution mode enumeration of the header
`mysh.h`, which is not part of the sources ("execution mode
(interactive | batch)"); `main` and `cliAdapter` use the two names
`INTERACTIVE` and `BATCH`. -/
inductive Functionality where
  | INTERACTIVE
  | BATCH
deriving DecidableEq, Repr

/-- Modelled from the spec: the member `variable` of `struct Config`
(header `mysh.h`, not part of the sources).  The only member the code
touches is `input`, a `FILE *`; `none` is the null pointer. -/
structure Variable where
  input : Option FILE
deriving DecidableEq, Repr

/-- Modelled from the spec: `struct Config` of the header `mysh.h`, used by
`main` as `{functionality, variable}` (`variable` is a reserved word here,
hence the underscore). -/
structure Config where
  functionality : Functionality
  variable_ : Variable
deriving DecidableEq, Repr

/-- What is handed to `fprintf`.  The three `ERROR_*` names are
preprocessor definitions of the header `message.h`, which is not part of the
sources: they are kept symbolic, with the argument the code passes. -/
inductive Message where
  | ERROR_ARGUMENTS
  | ERROR_FILE (filename : String)
  | ERROR_COMMAND (jobName : String)
  | text (s : String)
deriving DecidableEq, Repr

/-- The two standard output streams the code writes to. -/
inductive Std where
  | stdout
  | stderr
deriving DecidableEq, Repr

/-- One library call (or call of a session function) made by the program,
with the actual arguments of the call site. -/
inductive Event where
  | fopen (filename : String) (mode : String)
  | fclose (stream : Option FILE)
  | fprintf (stream : Std) (m : Message)
  | perror (s : String)
  | fflush (stream : Std)
  | fork
  | execv (path : Option String) (argv : Option (List String))
  | waitpid
  | batch
  | prompt
deriving DecidableEq, Repr

/-- How a piece of code ends. -/
inductive Status (α : Type) where
  /-- Control comes back to the caller with a value. -/
  | returned (a : α)
  /-- The process ended through `exit(code)`. -/
  | exited (code : Int)
  /-- The process image was replaced by a successful `execv`. -/
  | replaced
  /-- The C standard gives the step no meaning (null stream passed to
  `fclose`, read past the end of `argv`). -/
  | undefinedBehaviour
deriving DecidableEq, Repr

/-- Result of running a piece of code: the calls made, in order, and how it
ended. -/
structure Run (α : Type) where
  trace : List Event
  status : Status α
deriving DecidableEq, Repr

/-- Sequencing: the second part runs only if the first one returned. -/
def Run.bind {α β : Type} (r : Run α) (f : α → Run β) : Run β :=
  match r.status with
  | .returned a => ⟨r.trace ++ (f a).trace, (f a).status⟩
  | .exited c => ⟨r.trace, .exited c⟩
  | .replaced => ⟨r.trace, .replaced⟩
  | .undefinedBehaviour => ⟨r.trace, .undefinedBehaviour⟩

instance : Monad Run where
  pure a := ⟨[], .returned a⟩
  bind := Run.bind

/-- Everything decided outside the program. -/
structure Env where
  /-- Whether `getopt` stops at the first non-option (POSIX order, e.g. with
  `POSIXLY_CORRECT` set) instead of permuting `argv` (GNU default). -/
  posixly_correct : Bool
  /-- Result of `fopen(filename, "r")`; `none` is the null pointer. -/
  fopen : String → Option FILE
  /-- Result of `fclose` on an open stream: `0` on success. -/
  fclose : FILE → Int
  /-- Whether `execv` replaces the process image (it then does not
  return). -/
  execvSucceeds : Bool
  /-- The lines an opened stream holds.  No statement of the program reads a
  stream, so no definition below consults this field: it only says what the
  input of a run is. -/
  content : FILE → List String

/-! ## Library calls -/

/-- Call `fprintf(stream, ...)`. -/
def fprintf (stream : Std) (m : Message) : Run Unit :=
  ⟨[.fprintf stream m], .returned ()⟩

/-- Call `fflush(stream)`. -/
def fflush (stream : Std) : Run Unit :=
  ⟨[.fflush stream], .returned ()⟩

/-- Call `perror(s)`. -/
def perror (s : String) : Run Unit :=
  ⟨[.perror s], .returned ()⟩

/-- Call `exit(code)`: never returns. -/
def exit {α : Type} (code : Int) : Run α :=
  ⟨[], .exited code⟩

/-- Call `fopen(filename, mode)`. -/
def fopen (env : Env) (filename : String) (mode : String) : Run (Option FILE) :=
  ⟨[.fopen filename mode], .returned (env.fopen filename)⟩

/-- Call `fclose(stream)`.  A null stream is outside the contract of
`fclose`. -/
def fclose (env : Env) (stream : Option FILE) : Run Int :=
  match stream with
  | some s => ⟨[.fclose (some s)], .returned (env.fclose s)⟩
  | none => ⟨[.fclose none], .undefinedBehaviour⟩

/-- Call `fork()`; the result is ignored by the code, and each of the two
processes goes on with the same statements. -/
def fork : Run Unit :=
  ⟨[.fork], .returned ()⟩

/-- Call `execv(path, argv)`: on success the process image is replaced, on
failure the call returns.  `none` stands for an actual argument that the call
site does not write. -/
def execv (env : Env) (path : Option String) (argv : Option (List String)) : Run Unit :=
  ⟨[.execv path argv], if env.execvSucceeds then .replaced else .returned ()⟩

/-- Call `waitpid()`. -/
def waitpid : Run Unit :=
  ⟨[.waitpid], .returned ()⟩

/-! ## `getopt` with the empty option string

`cliAdapter` calls `getopt(argc, argv, "")` with `opterr = 0`.  Every result
other than `-1` leaves the loop for `error_argument`, so only the first call
(made with `optind = 1`) matters. -/

/-- The test `NONOPTION_P` of `getopt`: the element does not start with
`-`, or is exactly `-`. -/
def NONOPTION_P (arg : String) : Bool :=
  match arg.data with
  | '-' :: _ :: _ => false
  | _ => true

/-- The loop `while (optind < argc && NONOPTION_P (argv[optind])) optind++`,
run with `fuel = argc - optind`. -/
def skipNonoptions (argv : List String) : Nat → Nat → Nat
  | 0, optind => optind
  | fuel + 1, optind =>
    if NONOPTION_P (argv.getD optind "") then skipNonoptions argv fuel (optind + 1)
    else optind

/-- The helper `exchange` of `getopt`: the non-options at
`[first_nonopt, last_nonopt)` and the elements at `[last_nonopt, optind)`
swap places. -/
def exchange (argv : List String) (first_nonopt last_nonopt optind : Nat) : List String :=
  argv.take first_nonopt
    ++ (argv.drop last_nonopt).take (optind - last_nonopt)
    ++ (argv.drop first_nonopt).take (last_nonopt - first_nonopt)
    ++ argv.drop optind

/-- What a call of `getopt` leaves behind: its return value, the global
`optind`, and `argv` (which the GNU version may permute). -/
structure GetoptResult where
  ret : Int
  optind : Nat
  argv : List String
deriving DecidableEq, Repr

/-- The return value `'?'` of `getopt`. -/
def questionMark : Int := 63

/-- First call of `getopt(argc, argv, "")`, starting from `optind = 1`. -/
def getopt (posixly_correct : Bool) (argc : Nat) (argv : List String) : GetoptResult :=
  if argc < 1 then ⟨-1, 1, argv⟩
  else
    let first_nonopt := 1
    -- permuting: skip the non-options in front
    let optind := if posixly_correct then 1 else skipNonoptions argv (argc - 1) 1
    let last_nonopt := optind
    if optind ≠ argc ∧ argv.getD optind "" = "--" then
      -- the special element `--` ends the options
      if first_nonopt ≠ last_nonopt then
        ⟨-1, first_nonopt + 1, exchange argv first_nonopt last_nonopt (optind + 1)⟩
      else
        ⟨-1, optind + 1, argv⟩
    else if optind = argc then
      -- all elements scanned: back over the non-options that were skipped
      ⟨-1, if first_nonopt ≠ last_nonopt then first_nonopt else optind, argv⟩
    else if NONOPTION_P (argv.getD optind "") then
      -- POSIX order: the first non-option stops the scan
      ⟨-1, optind, argv⟩
    else
      -- an option element: no character is in the empty option string
      ⟨questionMark, if (argv.getD optind "").utf8ByteSize = 2 then optind + 1 else optind, argv⟩

/-! ## The program -/

/-- The function `createFileDescriptor`: open the file for reading with
error handling. -/
def createFileDescriptor (env : Env) (filename : String) : Run (Option FILE) := do
  let s ← fopen env filename "r"
  match s with
  | some s => pure (some s)
  | none =>
    -- fileError:
    fprintf .stderr (.ERROR_FILE filename)
    fflush .stderr
    exit 1

/-- The label `error_argument` of `cliAdapter`. -/
def error_argument {α : Type} : Run α := do
  fprintf .stderr .ERROR_ARGUMENTS
  fflush .stderr
  exit 1

/-- The function `cliAdapter`: parse the command-line arguments and update
the configuration.  With `opterr = 0` the call of `getopt` writes nothing.
Each case of the `switch` in the `while` loop jumps to `error_argument`, so
the loop body is entered at most once: the loop is the first call of
`getopt` and the test of its result against `-1`. -/
def cliAdapter (env : Env) (argc : Nat) (argv : List String) (config : Config) :
    Run Config :=
  let g := getopt env.posixly_correct argc argv
  if g.ret ≠ -1 then
    error_argument
  else if argc = 1 then
    pure config
  else if argc = 2 ∧ g.optind = 1 then
    -- case_filename:
    match g.argv.get? 1 with
    | none => ⟨[], .undefinedBehaviour⟩
    | some filename => do
      let config := { config with functionality := .BATCH }
      let s ← createFileDescriptor env filename
      pure { config with variable_ := { config.variable_ with input := s } }
  else
    error_argument

/-- The function `parse`: its body holds comments only. -/
def parse : Run Unit :=
  pure ()

/-- The text written at the label `error_longCommand`. -/
def longCommandWarning : String :=
  "warning: ignoring long command exceeding 512 characters"

/-- The function `executeCommand`.  The labels `error_noCommand` and
`error_longCommand` are reached by falling through. -/
def executeCommand (env : Env) : Run Unit := do
  fork
  -- `execv()`: the call site passes neither a path nor an argument vector
  execv env none none
  waitpid
  -- error_noCommand:
  let jobName := ""
  fprintf .stderr (.ERROR_COMMAND jobName)
  fflush .stderr
  -- error_longCommand:
  fprintf .stdout (.text longCommandWarning)
  fflush .stdout

/-- The function `prompt`: its body holds comments only.  The call is
logged. -/
def prompt : Run Unit :=
  ⟨[.prompt], .returned ()⟩

/-- The function `batch`: its body holds comments only.  The call is
logged. -/
def batch : Run Unit :=
  ⟨[.batch], .returned ()⟩

/-- The function `main`. -/
def main (env : Env) (argc : Nat) (argv : List String) : Run Int := do
  let config : Config := ⟨.INTERACTIVE, ⟨none⟩⟩
  let config ← cliAdapter env argc argv config
  match config.functionality with
  | .BATCH => batch
  | .INTERACTIVE => prompt
  -- clean up
  if (← fclose env config.variable_.input) ≠ 0 then
    perror "Error: while closing file. "
    fflush .stderr
    exit 1
  pure 0

/-! ## Observations on traces -/

/-- The streams passed to `fclose`, in order. -/
def fcloseCalls : List Event → List (Option FILE)
  | [] => []
  | .fclose s :: es => s :: fcloseCalls es
  | _ :: es => fcloseCalls es

/-- The file names passed to `fopen`, in order. -/
def fopenCalls : List Event → List String
  | [] => []
  | .fopen f _ :: es => f :: fopenCalls es
  | _ :: es => fopenCalls es

/-- What was written with `fprintf`, in order, with the stream. -/
def written : List Event → List (Std × Message)
  | [] => []
  | .fprintf s m :: es => (s, m) :: written es
  | _ :: es => written es

/-- No file can be opened; GNU `getopt`; `execv` fails. -/
def envNoFile : Env :=
  ⟨false, fun _ => none, fun _ => 0, false, fun _ => []⟩

/-- Only `batch.txt` can be opened, as stream 3, and closing succeeds. -/
def envBatch : Env :=
  ⟨false, fun f => if f = "batch.txt" then some ⟨3⟩ else none, fun _ => 0, false, fun _ => []⟩

/-- As `envBatch`, but closing fails (`EOF`). -/
def envCloseFails : Env :=
  ⟨false, fun f => if f = "batch.txt" then some ⟨3⟩ else none, fun _ => -1, false, fun _ => []⟩

theorem NONOPTION_P_dashdash : NONOPTION_P "--" = false := by decide

theorem getopt_argc_one (pc : Bool) (argv : List String) :
    getopt pc 1 argv = ⟨-1, 1, argv⟩ := by
  cases pc <;> simp [getopt, skipNonoptions]

theorem getopt_nonoption (pc : Bool) (program arg : String) (h : NONOPTION_P arg = true) :
    getopt pc 2 [program, arg] = ⟨-1, 1, [program, arg]⟩ := by
  have hne : arg ≠ "--" := by
    intro he
    rw [he, NONOPTION_P_dashdash] at h
    exact Bool.noConfusion h
  cases pc <;> simp [getopt, skipNonoptions, h, hne]

theorem getopt_option (pc : Bool) (program arg : String) (h : NONOPTION_P arg = false) :
    (getopt pc 2 [program, arg]).ret ≠ -1 ∨ (getopt pc 2 [program, arg]).optind ≠ 1 := by
  by_cases he : arg = "--"
  · right
    cases pc <;> simp [getopt, skipNonoptions, h, he, NONOPTION_P_dashdash]
  · left
    cases pc <;> simp [getopt, skipNonoptions, h, he, questionMark]

theorem error_argument_eq {α : Type} :
    (error_argument : Run α)
      = ⟨[.fprintf .stderr .ERROR_ARGUMENTS, .fflush .stderr], .exited 1⟩ := rfl

theorem cliAdapter_bad_count (env : Env) (argc : Nat) (argv : List String) (config : Config)
    (h1 : argc ≠ 1) (h2 : argc ≠ 2) :
    cliAdapter env argc argv config = error_argument := by
  unfold cliAdapter
  by_cases hr : (getopt env.posixly_correct argc argv).ret = -1 <;> simp [hr, h1, h2]

theorem cliAdapter_option (env : Env) (program arg : String) (config : Config)
    (h : NONOPTION_P arg = false) :
    cliAdapter env 2 [program, arg] config = error_argument := by
  unfold cliAdapter
  by_cases hr : (getopt env.posixly_correct 2 [program, arg]).ret = -1
  · have ho : (getopt env.posixly_correct 2 [program, arg]).optind ≠ 1 := by
      rcases getopt_option env.posixly_correct program arg h with h1 | h1
      · exact absurd hr h1
      · exact h1
    simp [hr, ho]
  · simp [hr]

theorem cliAdapter_filename (env : Env) (program filename : String) (config : Config)
    (h : NONOPTION_P filename = true) :
    cliAdapter env 2 [program, filename] config =
      (createFileDescriptor env filename).bind fun s =>
        pure { config with functionality := .BATCH, variable_ := { config.variable_ with input := s } } := by
  unfold cliAdapter
  rw [getopt_nonoption env.posixly_correct program filename h]
  rfl

theorem createFileDescriptor_some (env : Env) (filename : String) (s : FILE)
    (h : env.fopen filename = some s) :
    createFileDescriptor env filename = ⟨[.fopen filename "r"], .returned (some s)⟩ := by
  simp [createFileDescriptor, fopen, h, bind, Run.bind, pure]

theorem createFileDescriptor_none (env : Env) (filename : String)
    (h : env.fopen filename = none) :
    createFileDescriptor env filename =
      ⟨[.fopen filename "r", .fprintf .stderr (.ERROR_FILE filename), .fflush .stderr],
        .exited 1⟩ := by
  simp [createFileDescriptor, fopen, h, bind, Run.bind, fprintf, fflush, exit]

theorem main_interactive (env : Env) (program : String) :
    main env 1 [program] = ⟨[.prompt, .fclose none], .undefinedBehaviour⟩ := by
  unfold main cliAdapter
  rw [getopt_argc_one]
  rfl

theorem main_batch_open (env : Env) (program filename : String) (s : FILE)
    (h : NONOPTION_P filename = true) (hf : env.fopen filename = some s) :
    main env 2 [program, filename] =
      ⟨[.fopen filename "r", .batch, .fclose (some s)]
          ++ (if env.fclose s = 0 then [] else [.perror "Error: while closing file. ", .fflush .stderr]),
        if env.fclose s = 0 then .returned 0 else .exited 1⟩ := by
  unfold main
  dsimp only
  rw [cliAdapter_filename env program filename _ h, createFileDescriptor_some env filename s hf]
  by_cases hc : env.fclose s = 0 <;>
    simp [bind, Run.bind, pure, batch, fclose, hc, perror, fflush, exit]

theorem main_batch_missing (env : Env) (program filename : String)
    (h : NONOPTION_P filename = true) (hf : env.fopen filename = none) :
    main env 2 [program, filename] =
      ⟨[.fopen filename "r", .fprintf .stderr (.ERROR_FILE filename), .fflush .stderr],
        .exited 1⟩ := by
  unfold main
  dsimp only
  rw [cliAdapter_filename env program filename _ h, createFileDescriptor_none env filename hf]
  rfl

theorem executeCommand_returns (env : Env) (h : env.execvSucceeds = false) :
    executeCommand env =
      ⟨[.fork, .execv none none, .waitpid, .fprintf .stderr (.ERROR_COMMAND ""), .fflush .stderr,
        .fprintf .stdout (.text longCommandWarning), .fflush .stdout], .returned ()⟩ := by
  simp [executeCommand, bind, Run.bind, fork, execv, waitpid, fprintf, fflush, h]

theorem executeCommand_replaced (env : Env) (h : env.execvSucceeds = true) :
    executeCommand env = ⟨[.fork, .execv none none], .replaced⟩ := by
  simp [executeCommand, bind, Run.bind, fork, execv, waitpid, fprintf, fflush, h]

theorem cliAdapter_error (env : Env) (config : Config) (argv : List String)
    (h : (argv.length ≠ 1 ∧ argv.length ≠ 2) ∨ (∃ a ∈ argv.tail, NONOPTION_P a = false)) :
    cliAdapter env argv.length argv config = error_argument := by
  by_cases hc : argv.length ≠ 1 ∧ argv.length ≠ 2
  · exact cliAdapter_bad_count env _ argv config hc.1 hc.2
  · rcases h with h | ⟨a, ha, hopt⟩
    · exact absurd h hc
    · match argv, ha, hc with
      | [_], ha, _ => simp at ha
      | [program, arg], ha, _ =>
        simp at ha
        subst ha
        exact cliAdapter_option env program a config hopt
      | _ :: _ :: _ :: _, _, hc => simp at hc

theorem main_error (env : Env) (argv : List String)
    (h : (argv.length ≠ 1 ∧ argv.length ≠ 2) ∨ (∃ a ∈ argv.tail, NONOPTION_P a = false)) :
    main env argv.length argv =
      ⟨[.fprintf .stderr .ERROR_ARGUMENTS, .fflush .stderr], .exited 1⟩ := by
  unfold main
  dsimp only
  rw [cliAdapter_error env _ argv h]
  rfl

theorem cliAdapter_batch_open (env : Env) (program filename : String) (s : FILE)
    (config : Config) (h : NONOPTION_P filename = true) (hf : env.fopen filename = some s) :
    cliAdapter env 2 [program, filename] config =
      ⟨[.fopen filename "r"], .returned ⟨.BATCH, ⟨some s⟩⟩⟩ := by
  rw [cliAdapter_filename env program filename config h,
    createFileDescriptor_some env filename s hf]
  rfl

/-! ## The claims -/

/-- C1: mode selection by `cliAdapter`.  Started with no argument
(`argc = 1`) it returns the configuration unchanged, so the mode `main` set,
`INTERACTIVE`, stays, and it makes no call at all (no file is opened).
Started with exactly one argument that is not option-like (`argc = 2`) it
calls `fopen` exactly once, on `argv[1]`; when the file opens, the
configuration it returns has `functionality = BATCH` and the opened stream
as `input`; when the file does not open the program ends in the file error
exit. -/
theorem cliAdapter_mode_selection (env : Env) (config : Config) (program filename : String) :
    cliAdapter env 1 [program] config = ⟨[], .returned config⟩ ∧
    (NONOPTION_P filename = true →
      fopenCalls (cliAdapter env 2 [program, filename] config).trace = [filename] ∧
      (∀ s, env.fopen filename = some s →
        cliAdapter env 2 [program, filename] config =
          ⟨[.fopen filename "r"],
            .returned { functionality := .BATCH, variable_ := { input := some s } }⟩) ∧
      (env.fopen filename = none →
        (cliAdapter env 2 [program, filename] config).status = .exited 1)) := by
  refine ⟨?_, fun h => ?_⟩
  · unfold cliAdapter
    rw [getopt_argc_one]
    rfl
  · rw [cliAdapter_filename env program filename config h]
    cases hf : env.fopen filename with
    | none =>
      rw [createFileDescriptor_none env filename hf]
      exact ⟨rfl, fun s hs => Option.noConfusion hs, fun _ => rfl⟩
    | some s =>
      rw [createFileDescriptor_some env filename s hf]
      refine ⟨rfl, fun t ht => ?_, fun hn => Option.noConfusion hn⟩
      cases ht
      rfl

/-- Witness of C1 in batch mode: `mysh batch.txt` where the file opens as
stream 3. -/
theorem cliAdapter_mode_selection_witness :
    NONOPTION_P "batch.txt" = true ∧
    cliAdapter envBatch 2 ["mysh", "batch.txt"] ⟨.INTERACTIVE, ⟨none⟩⟩ =
      ⟨[.fopen "batch.txt" "r"], .returned ⟨.BATCH, ⟨some ⟨3⟩⟩⟩⟩ :=
  ⟨by decide,
    ((cliAdapter_mode_selection envBatch ⟨.INTERACTIVE, ⟨none⟩⟩ "mysh" "batch.txt").2
      (by decide)).2.1 ⟨3⟩ (by decide)⟩

/-- C2: usage error.  When the argument count is neither zero nor one
(`argc` is not 1 and not 2), or when some argument is option-like (starts
with `-` and has a further character, the lone `--` included), `cliAdapter`
writes the usage message to standard error, flushes it and ends the program
with exit code 1; this is all `main` does: no file is opened and neither
`batch()` nor `prompt()` is called. -/
theorem cliAdapter_usage_error (env : Env) (config : Config) (argv : List String)
    (h : (argv.length ≠ 1 ∧ argv.length ≠ 2) ∨ (∃ a ∈ argv.tail, NONOPTION_P a = false)) :
    cliAdapter env argv.length argv config =
      ⟨[.fprintf .stderr .ERROR_ARGUMENTS, .fflush .stderr], .exited 1⟩ ∧
    main env argv.length argv =
      ⟨[.fprintf .stderr .ERROR_ARGUMENTS, .fflush .stderr], .exited 1⟩ := by
  exact ⟨by rw [cliAdapter_error env config argv h, error_argument_eq], main_error env argv h⟩

/-- Witness of C2: `mysh -x` (one option-like argument). -/
theorem cliAdapter_usage_error_witness :
    main envBatch 2 ["mysh", "-x"] =
      ⟨[.fprintf .stderr .ERROR_ARGUMENTS, .fflush .stderr], .exited 1⟩ :=
  (cliAdapter_usage_error envBatch ⟨.INTERACTIVE, ⟨none⟩⟩ ["mysh", "-x"]
    (Or.inr ⟨"-x", by decide, by decide⟩)).2

/-- C3: `createFileDescriptor`.  When opening the file for reading succeeds
it returns the opened stream and the only call it makes is that `fopen`
(nothing is written); when opening fails it writes the `ERROR_FILE` message
built from that very file name to standard error, flushes it and ends the
program with exit code 1; it never returns a null stream. -/
theorem createFileDescriptor_contract (env : Env) (filename : String) :
    (∀ s, env.fopen filename = some s →
      createFileDescriptor env filename = ⟨[.fopen filename "r"], .returned (some s)⟩) ∧
    (env.fopen filename = none →
      createFileDescriptor env filename =
        ⟨[.fopen filename "r", .fprintf .stderr (.ERROR_FILE filename), .fflush .stderr],
          .exited 1⟩) ∧
    (createFileDescriptor env filename).status ≠ .returned none := by
  refine ⟨createFileDescriptor_some env filename, createFileDescriptor_none env filename, ?_⟩
  cases hf : env.fopen filename with
  | none => rw [createFileDescriptor_none env filename hf]; simp
  | some s => rw [createFileDescriptor_some env filename s hf]; simp

/-- Witness of C3: a file that cannot be opened. -/
theorem createFileDescriptor_contract_witness :
    createFileDescriptor envNoFile "missing.txt" =
      ⟨[.fopen "missing.txt" "r", .fprintf .stderr (.ERROR_FILE "missing.txt"),
        .fflush .stderr], .exited 1⟩ :=
  (createFileDescriptor_contract envNoFile "missing.txt").2.1 rfl

/-- C4: shutdown of `main` in interactive mode.  Started with no argument,
`main` calls `prompt()` and then `fclose` on the `input` member that was
initialised by `{}` and never set: the stream passed is the null pointer,
not standard input, and the run is neither a return of 0 nor the reported
exit with code 1. -/
theorem main_interactive_closes_null (env : Env) (program : String) :
    main env 1 [program] = ⟨[.prompt, .fclose none], .undefinedBehaviour⟩ ∧
    (main env 1 [program]).status ≠ .returned 0 ∧
    (main env 1 [program]).status ≠ .exited 1 := by
  rw [main_interactive]
  simp

/-- C5, the claim as stated fails: `mysh batch.txt extra` ends with the
usage error, exit code 1, and `fclose` is never called, so no stream is
closed "exactly once" on that exit path. -/
theorem main_usage_error_closes_nothing :
    (main envBatch 3 ["mysh", "batch.txt", "extra"]).status = .exited 1 ∧
    fcloseCalls (main envBatch 3 ["mysh", "batch.txt", "extra"]).trace = [] ∧
    ¬ ∃ s, fcloseCalls (main envBatch 3 ["mysh", "batch.txt", "extra"]).trace = [s] := by
  have h0 : fcloseCalls (main envBatch 3 ["mysh", "batch.txt", "extra"]).trace = [] := by
    decide
  refine ⟨by decide, h0, ?_⟩
  rintro ⟨s, hs⟩
  rw [h0] at hs
  exact List.noConfusion hs

/-- C5 as amended: on every run started with at least one argument, if the
single argument is a batch file that opens, then `cliAdapter` stores exactly
that opened stream in the configuration, and `main` calls `batch()` and then
passes exactly that stream to `fclose`, once, at shutdown (returning 0 when
the close succeeds, reporting and ending with exit code 1 when it fails); in
every other case (usage error or file error) the program ends with exit
code 1 without any call of `fclose`. -/
theorem main_input_closed_once (env : Env) (argv : List String) (h : argv.length ≠ 1) :
    (∀ program filename s, argv = [program, filename] → NONOPTION_P filename = true →
      env.fopen filename = some s →
      cliAdapter env argv.length argv ⟨.INTERACTIVE, ⟨none⟩⟩ =
        ⟨[.fopen filename "r"], .returned ⟨.BATCH, ⟨some s⟩⟩⟩ ∧
      main env argv.length argv =
        ⟨[.fopen filename "r", .batch, .fclose (some s)]
            ++ (if env.fclose s = 0 then []
                else [.perror "Error: while closing file. ", .fflush .stderr]),
          if env.fclose s = 0 then .returned 0 else .exited 1⟩ ∧
      fcloseCalls (main env argv.length argv).trace = [some s]) ∧
    ((¬ ∃ program filename s, argv = [program, filename] ∧ NONOPTION_P filename = true ∧
        env.fopen filename = some s) →
      (main env argv.length argv).status = .exited 1 ∧
      fcloseCalls (main env argv.length argv).trace = []) := by
  constructor
  · intro program filename s he hn hf
    subst he
    have hm : main env [program, filename].length [program, filename] = _ :=
      main_batch_open env program filename s hn hf
    refine ⟨cliAdapter_batch_open env program filename s _ hn hf, hm, ?_⟩
    rw [hm]
    by_cases hc : env.fclose s = 0 <;> simp [hc, fcloseCalls]
  · intro hno
    match argv, h, hno with
    | [], _, _ =>
      rw [main_error env [] (Or.inl ⟨by simp, by simp⟩)]
      exact ⟨rfl, rfl⟩
    | [_], h, _ => simp at h
    | [program, filename], _, hno =>
      cases hn : NONOPTION_P filename with
      | false =>
        rw [main_error env [program, filename] (Or.inr ⟨filename, by simp, hn⟩)]
        exact ⟨rfl, rfl⟩
      | true =>
        cases hf : env.fopen filename with
        | none =>
          have hm : main env [program, filename].length [program, filename] = _ :=
            main_batch_missing env program filename hn hf
          rw [hm]
          exact ⟨rfl, rfl⟩
        | some s => exact absurd ⟨program, filename, s, rfl, hn, hf⟩ hno
    | a :: b :: c :: rest, _, _ =>
      rw [main_error env (a :: b :: c :: rest) (Or.inl ⟨by simp, by simp⟩)]
      exact ⟨rfl, rfl⟩

/-- Witness of C5 as amended: `mysh batch.txt` where the file opens as stream
3 closes stream 3 once; `mysh batch.txt` where no file opens ends with exit
code 1 and closes nothing. -/
theorem main_input_closed_once_witness :
    (main envBatch 2 ["mysh", "batch.txt"] =
        ⟨[.fopen "batch.txt" "r", .batch, .fclose (some ⟨3⟩)], .returned 0⟩ ∧
      fcloseCalls (main envBatch 2 ["mysh", "batch.txt"]).trace = [some ⟨3⟩]) ∧
    ((main envNoFile 2 ["mysh", "batch.txt"]).status = .exited 1 ∧
      fcloseCalls (main envNoFile 2 ["mysh", "batch.txt"]).trace = []) :=
  ⟨((main_input_closed_once envBatch ["mysh", "batch.txt"] (by decide)).1
      "mysh" "batch.txt" ⟨3⟩ rfl (by decide) (by decide)).2,
    (main_input_closed_once envNoFile ["mysh", "batch.txt"] (by decide)).2
      (fun ⟨_, _, _, _, _, hs⟩ => Option.noConfusion hs)⟩

/-- C10: control flow of `executeCommand`.  Nothing branches or returns
between `fork(); execv(); waitpid();` and the two labels, so every call that
returns has made exactly these calls, in this order: the command-not-found
diagnostic with the empty job name goes to standard error, then the
long-command warning goes to standard output. -/
theorem executeCommand_falls_through (env : Env)
    (h : (executeCommand env).status = .returned ()) :
    (executeCommand env).trace =
      [.fork, .execv none none, .waitpid,
        .fprintf .stderr (.ERROR_COMMAND ""), .fflush .stderr,
        .fprintf .stdout (.text "warning: ignoring long command exceeding 512 characters"),
        .fflush .stdout] ∧
    written (executeCommand env).trace =
      [(.stderr, .ERROR_COMMAND ""),
        (.stdout, .text "warning: ignoring long command exceeding 512 characters")] := by
  cases he : env.execvSucceeds with
  | true =>
    rw [executeCommand_replaced env he] at h
    exact Status.noConfusion h
  | false =>
    rw [executeCommand_returns env he]
    exact ⟨rfl, rfl⟩

/-- Witness of C10: a call in which `execv` fails returns. -/
theorem executeCommand_falls_through_witness :
    (executeCommand envNoFile).status = .returned () ∧
    written (executeCommand envNoFile).trace =
      [(.stderr, .ERROR_COMMAND ""),
        (.stdout, .text "warning: ignoring long command exceeding 512 characters")] :=
  ⟨rfl, (executeCommand_falls_through envNoFile rfl).2⟩

end Mysh
